import Mathlib

/-!
# The `cttp` IO driver (`pkg/urbit/vere/io/cttp.c`)

A shallow embedding of the HTTP-client bridge driver. The C functions act on
the process heap, on the libuv loop and on the kernel's event queue; here they
are functions on an explicit `World` that records exactly those effects:

* heap blocks obtained from `c3_malloc` / `c3_calloc` and the addresses given
  to `c3_free`;
* the libuv handles that were initialised on the loop and not closed;
* every call of `uv_write` (with the status libuv returned for it);
* the events planned with `u3_auto_plan`;
* the nouns released with `u3z` and the lines printed on `stderr`.

Results of library code that is not part of the file (the jam encoder, the
`scot` gate, `u3r_mug`, the status of `uv_write` and `uv_spawn`, ...) are
parameters.
-/

namespace Cttp

/-! ## Nouns, loobeans, motes -/

/-- A noun is an atom or a cell of two nouns. -/
inductive Noun where
  | atom (a : Nat)
  | cell (h t : Noun)
  deriving DecidableEq, Repr

/-- Loobeans: `c3y` is yes, `c3n` is no. -/
inductive c3_o where
  | c3y
  | c3n
  deriving DecidableEq, Repr

open c3_o

/-- The atom whose bytes, least significant first, are the given ones. -/
def bytes_to_atom : List Nat → Nat
  | [] => 0
  | b :: bs => b + 256 * bytes_to_atom bs

/-- The cord of an ASCII string: its bytes read as a little-endian number. -/
def cord (s : String) : Nat :=
  bytes_to_atom (s.toList.map Char.toNat)

/-- The empty list, atom 0. -/
def u3_nul : Noun := .atom 0

/-- The mote `%cttp`. -/
def c3__cttp : Nat := cord "cttp"

/-- The mote `%uv`. -/
def c3__uv : Nat := cord "uv"

/-- The mote `%born`. -/
def c3__born : Nat := cord "born"

/-- The mote `%i`. -/
def c3__i : Nat := cord "i"

/-- `u3nc(a, b)`: the cell `[a b]`. -/
def u3nc (a b : Noun) : Noun := .cell a b

/-- `u3nt(a, b, c)`: the triple `[a b c]`. -/
def u3nt (a b c : Noun) : Noun := .cell a (.cell b c)

/-- `u3i_string(s)`: the atom of a C string. -/
def u3i_string (s : String) : Noun := .atom (cord s)

/-- `u3r_cell(a, &b, &c)`: the head and tail of `a` when `a` is a cell
(the C function then returns `c3y`), nothing when it is an atom (`c3n`). -/
def u3r_cell : Noun → Option (Noun × Noun)
  | .cell h t => some (h, t)
  | .atom _ => none

/-- `u3r_sing_c(s, a)`: `c3y` exactly when `a` is the atom of the C string `s`. -/
def u3r_sing_c (s : String) (a : Noun) : c3_o :=
  if a = .atom (cord s) then c3y else c3n

/-! ## Records of the file -/

/-- The static functions of the file, as they are stored in callback slots. -/
inductive Callback where
  | _child_exit_cb
  | _driver_exit
  | _driver_kick
  | _driver_talk
  | _write_cb
  deriving DecidableEq, Repr

/-- The fields of `u3_auto` that the file assigns. -/
structure u3_auto where
  nam_m : Nat
  liv_o : c3_o
  talk_f : Option Callback
  kick_f : Option Callback
  exit_f : Option Callback
  deriving DecidableEq, Repr

/-- The three libuv handles embedded in `_client.child_u`. -/
inductive ChildField where
  | proc_u
  | stdin_u
  | stdout_u
  deriving DecidableEq, Repr

/-- A libuv handle is named by the record that embeds it and the field it is. -/
structure Handle where
  owner : Nat
  field : ChildField
  deriving DecidableEq, Repr

/-- `_client`: the driver handle and the instance number; the handles of
`child_u` are embedded, their loop state is kept in `World.handles`. -/
structure _client where
  driver_u : u3_auto
  inst_num_l : Nat
  deriving DecidableEq, Repr

/-- `_io_req`: combined length, type tag, pointer to the jammed request. -/
structure _io_req where
  len_d : Nat
  type_y : Nat
  jammed_req_y : Nat
  deriving DecidableEq, Repr

/-- Request types for the IPC pipe. -/
def IO_REQ_HTTP_CLIENT : Nat := 0

/-- What a heap block holds. -/
inductive Obj where
  | client (c : _client)
  | io_req (r : _io_req)
  | bytes (bs : List Nat)
  | write_req
  deriving DecidableEq, Repr

/-- Where a `uv_buf_t.base` points: at the `len_d` field or the `type_y` field
of the `_io_req` at an address, or at the first byte of a byte buffer. -/
inductive Ptr where
  | len_d (a : Nat)
  | type_y (a : Nat)
  | bytes (a : Nat)
  deriving DecidableEq, Repr

/-- `uv_buf_t`. -/
structure uv_buf_t where
  base : Ptr
  len : Nat
  deriving DecidableEq, Repr

/-- One call of `uv_write`: the request record, the stream, the buffers, the
completion callback, and the status libuv returned (0: the write is queued and
the callback will fire; non-zero: nothing is queued, the callback never fires). -/
structure WriteCall where
  req : Nat
  stream : Handle
  bufs : List uv_buf_t
  cb : Callback
  status : Int
  deriving DecidableEq, Repr

/-- The event built by `u3_ovum_init(mil_w, tar, wir, cad)`. -/
structure u3_ovum where
  mil_w : Nat
  tar : Noun
  wir : Noun
  cad : Noun
  deriving DecidableEq, Repr

/-- How one stdio slot of the child is wired. -/
inductive Stdio where
  | create_pipe_readable (stream : Handle)
  | inherit_fd (fd : Nat)
  deriving DecidableEq, Repr

/-- One call of `uv_spawn`: the process handle, the options, the status. -/
structure SpawnCall where
  proc : Handle
  exit_cb : Callback
  file : String
  args : List String
  stdio : List Stdio
  status : Int
  deriving DecidableEq, Repr

/-- The state the driver acts on. -/
structure World where
  /-- Live heap blocks, by address. -/
  heap : List (Nat × Obj)
  /-- The next address the allocator hands out. -/
  brk : Nat
  /-- The addresses passed to `c3_free`, in call order. -/
  freed : List Nat
  /-- Handles initialised on the loop and not closed. -/
  handles : List Handle
  /-- The calls of `uv_write`, in call order. -/
  writes : List WriteCall
  /-- The calls of `uv_spawn`, in call order. -/
  spawns : List SpawnCall
  /-- The events planned on the kernel queue, each with the driver that planned it. -/
  planned : List (Nat × u3_ovum)
  /-- The nouns released with `u3z`, in call order. -/
  lost : List Noun
  /-- The lines printed on `stderr`. -/
  stderr : List String
  deriving DecidableEq, Repr

/-- Results of library code outside the file. -/
structure Env where
  /-- The bytes `u3s_jam_xeno` produces for a noun. -/
  jam : Noun → List Nat
  /-- The gate `scot`, slammed with `u3dc`. -/
  scot : Noun → Noun → Noun
  /-- The noun `u3_time_in_tv` builds from a `timeval`. -/
  u3_time_in_tv : Nat × Nat → Noun
  /-- The 31-bit hash `u3r_mug`. -/
  u3r_mug : Noun → Nat
  /-- The message `uv_strerror` gives for a status. -/
  uv_strerror : Int → String

/-! ## Library operations -/

/-- A world with nothing in it. -/
def World.empty : World :=
  { heap := [], brk := 1, freed := [], handles := [], writes := [], spawns := [],
    planned := [], lost := [], stderr := [] }

/-- Every live block lies below the allocation frontier. -/
def World.WF (w : World) : Prop := ∀ p ∈ w.heap, p.1 < w.brk

instance (w : World) : Decidable w.WF := by
  unfold World.WF; infer_instance

/-- `c3_malloc`: a fresh block holding `o`; the address and the new world. -/
def c3_malloc (w : World) (o : Obj) : Nat × World :=
  (w.brk, { w with heap := w.heap ++ [(w.brk, o)], brk := w.brk + 1 })

/-- `c3_free`: the block at `a` is no longer live; the call is logged. -/
def c3_free (w : World) (a : Nat) : World :=
  { w with heap := w.heap.filter (fun p => p.1 != a), freed := w.freed ++ [a] }

/-- An assignment through a pointer: the block at `a` now holds `o`. -/
def World.store (w : World) (a : Nat) (o : Obj) : World :=
  { w with heap := w.heap.map (fun p => if p.1 = a then (a, o) else p) }

/-- `u3z`: release a reference to a noun. -/
def u3z (w : World) (a : Noun) : World :=
  { w with lost := w.lost ++ [a] }

/-- `u3s_jam_xeno(a, &len_d, &byt_y)`: the jam of `a` in a freshly allocated
buffer; the length as a `c3_d`, the buffer's address, the new world. -/
def u3s_jam_xeno (E : Env) (w : World) (a : Noun) : Nat × Nat × World :=
  let bs := E.jam a
  let (byt_y, w) := c3_malloc w (.bytes bs)
  (bs.length % 2 ^ 64, byt_y, w)

/-- `uv_write(req, stream, bufs, nbufs, cb)`: the call is recorded with the
status `ret_i` that libuv returns for it. -/
def uv_write (w : World) (ret_i : Int) (req : Nat) (stream : Handle)
    (bufs : List uv_buf_t) (nbufs : Nat) (cb : Callback) : Int × World :=
  (ret_i, { w with writes := w.writes ++ [⟨req, stream, bufs.take nbufs, cb, ret_i⟩] })

/-- `uv_pipe_init(loop, handle, ipc)`: the pipe handle is initialised on the loop. -/
def uv_pipe_init (w : World) (handle : Handle) : World :=
  { w with handles := w.handles ++ [handle] }

/-- `uv_spawn(loop, handle, options)`: the call is recorded with the status
`ret_i` that libuv returns for it. libuv initialises the process handle on the
loop before the spawn can fail, so the handle is registered for every status;
on status 0 the child runs. -/
def uv_spawn (w : World) (ret_i : Int) (proc : Handle) (exit_cb : Callback)
    (file : String) (args : List String) (stdio : List Stdio) : Int × World :=
  (ret_i, { w with spawns := w.spawns ++ [⟨proc, exit_cb, file, args, stdio, ret_i⟩],
                   handles := w.handles ++ [proc] })

/-- A line printed with `fprintf(stderr, ...)`. -/
def fprintf_stderr (w : World) (line : String) : World :=
  { w with stderr := w.stderr ++ [line] }

/-- `c3_calloc` for a client record: a fresh block, all fields zero. -/
def c3_calloc_client (w : World) : Nat × World :=
  c3_malloc w (.client ⟨⟨0, c3y, none, none, none⟩, 0⟩)

/-- The bytes of a `c3_d` in memory, least significant first. -/
def c3_d_bytes (n : Nat) : List Nat :=
  [n % 256, n / 2 ^ 8 % 256, n / 2 ^ 16 % 256, n / 2 ^ 24 % 256,
   n / 2 ^ 32 % 256, n / 2 ^ 40 % 256, n / 2 ^ 48 % 256, n / 2 ^ 56 % 256]

/-- The bytes a `uv_buf_t` denotes in the current heap; nothing when it
points into a block that is not live or reaches past its end. -/
def World.read (w : World) (b : uv_buf_t) : Option (List Nat) :=
  match b.base with
  | .len_d a =>
    match w.heap.lookup a with
    | some (.io_req r) => if b.len ≤ 8 then some ((c3_d_bytes r.len_d).take b.len) else none
    | _ => none
  | .type_y a =>
    match w.heap.lookup a with
    | some (.io_req r) => if b.len ≤ 1 then some ([r.type_y % 256].take b.len) else none
    | _ => none
  | .bytes a =>
    match w.heap.lookup a with
    | some (.bytes bs) => if b.len ≤ bs.length then some (bs.take b.len) else none
    | _ => none

/-- The bytes of a buffer array, segment after segment. -/
def World.gather (w : World) : List uv_buf_t → Option (List Nat)
  | [] => some []
  | b :: bs =>
    match w.read b, w.gather bs with
    | some x, some y => some (x ++ y)
    | _, _ => none

/-- The bytes that the accepted writes among `cs` put on `stream`, in call order. -/
def World.sent (w : World) (stream : Handle) : List WriteCall → Option (List Nat)
  | [] => some []
  | c :: cs =>
    if c.status = 0 ∧ c.stream = stream then
      match w.gather c.bufs, w.sent stream cs with
      | some x, some y => some (x ++ y)
      | _, _ => none
    else w.sent stream cs

/-- The bytes queued on a stream. -/
def World.queued (w : World) (stream : Handle) : Option (List Nat) :=
  w.sent stream w.writes

/-- `u3_ovum_init`. -/
def u3_ovum_init (mil_w : Nat) (tar wir cad : Noun) : u3_ovum :=
  ⟨mil_w, tar, wir, cad⟩

/-- `u3_auto_plan(car_u, egg_u)`: the event is appended to the queue. -/
def u3_auto_plan (w : World) (car_u : Nat) (egg_u : u3_ovum) : World :=
  { w with planned := w.planned ++ [(car_u, egg_u)] }

/-! ## Static functions -/

/-- `_child_exit_cb`: the body is empty. -/
def _child_exit_cb (w : World) (_child_u : Handle) (_status_d : Int) (_term_sig_i : Int) :
    World :=
  w

/-- `_write_cb`: frees the write request. -/
def _write_cb (w : World) (write_req_u : Nat) (_status_i : Int) : World :=
  c3_free w write_req_u

/-- `_driver_exit`: frees the client record. -/
def _driver_exit (w : World) (driver_u : Nat) : World :=
  let client_u := driver_u
  c3_free w client_u

/-- `_driver_kick`. `ret_i` is the status `uv_write` returns if it is called.
The two `goto end` exits are the branches that leave the world as it is; the
record `r` follows the fields of `*io_req_u`, written back at each assignment
(a block fresh from `c3_malloc` is taken to hold zeros). `sizeof` of `len_d`
is 8 and of `type_y` is 1; `c3_d` and `size_t` arithmetic is modulo `2 ^ 64`. -/
def _driver_kick (E : Env) (ret_i : Int) (w : World) (driver_u : Nat)
    (wire card : Noun) : c3_o × World :=
  let suc_o := c3n
  let w :=
    match u3r_cell wire with
    | none => w
    | some (wire_head, _) =>
      if u3r_sing_c "http-client" wire_head = c3n then w
      else
        let client_u := driver_u
        let r : _io_req := ⟨0, 0, 0⟩
        let (io_req_u, w) := c3_malloc w (.io_req r)
        let (len_d, jammed_req_y, w) := u3s_jam_xeno E w card
        let r := { r with len_d := len_d, jammed_req_y := jammed_req_y }
        let w := w.store io_req_u (.io_req r)
        let r := { r with type_y := IO_REQ_HTTP_CLIENT }
        let w := w.store io_req_u (.io_req r)
        let r := { r with len_d := (r.len_d + 1) % 2 ^ 64 }
        let w := w.store io_req_u (.io_req r)
        let req_bufs_u : List uv_buf_t :=
          [ ⟨.len_d io_req_u, 8⟩,
            ⟨.type_y io_req_u, 1⟩,
            ⟨.bytes r.jammed_req_y, (r.len_d + 2 ^ 64 - 1) % 2 ^ 64⟩ ]
        let (write_req_u, w) := c3_malloc w .write_req
        (uv_write w ret_i write_req_u ⟨client_u, .stdin_u⟩ req_bufs_u 3 ._write_cb).2
  let w := u3z w wire
  let w := u3z w card
  (suc_o, w)

/-- `_driver_talk`: notify that the HTTP client driver is live. Nothing when
`driver_u` does not point at a client record. -/
def _driver_talk (E : Env) (w : World) (driver_u : Nat) : Option World :=
  match w.heap.lookup driver_u with
  | some (.client client_u) =>
    let wire := u3nt (u3i_string "http-client")
                     (E.scot (.atom c3__uv) (.atom client_u.inst_num_l))
                     u3_nul
    let card := u3nc (.atom c3__born) u3_nul
    some (u3_auto_plan w driver_u (u3_ovum_init 0 (.atom c3__i) wire card))
  | _ => none

/-! ## Functions -/

/-- The file descriptor of standard output. -/
def STDOUT_FILENO : Nat := 1

/-- The file descriptor of standard error. -/
def STDERR_FILENO : Nat := 2

/-- `u3_cttp_io_init`. `tv` is what `gettimeofday` reads, `ret_i` the status
`uv_spawn` returns. The result is the new driver, or nothing for `NULL`. -/
def u3_cttp_io_init (E : Env) (tv : Nat × Nat) (ret_i : Int) (w : World) :
    Option Nat × World :=
  let (client_u, w) := c3_calloc_client w
  let c : _client := ⟨⟨0, c3y, none, none, none⟩, 0⟩
  let c := { c with driver_u :=
    { nam_m := c3__cttp,
      liv_o := c3y,
      talk_f := some ._driver_talk,
      kick_f := some ._driver_kick,
      exit_f := some ._driver_exit } }
  let w := w.store client_u (.client c)
  let now := E.u3_time_in_tv tv
  let c := { c with inst_num_l := E.u3r_mug now % 2 ^ 32 }
  let w := w.store client_u (.client c)
  let w := u3z w now
  let args_c := ["/home/tlon/code/io/target/debug/io"]
  let w := uv_pipe_init w ⟨client_u, .stdin_u⟩
  let stdio_u : List Stdio :=
    [ .create_pipe_readable ⟨client_u, .stdin_u⟩,
      .inherit_fd STDOUT_FILENO,
      .inherit_fd STDERR_FILENO ]
  let (ret_i, w) :=
    uv_spawn w ret_i ⟨client_u, .proc_u⟩ ._child_exit_cb (args_c.headD "") args_c stdio_u
  if 0 ≠ ret_i then
    let w := fprintf_stderr w
      ("http-client: failed to spawn " ++ args_c.headD "" ++ ": " ++ E.uv_strerror ret_i ++ "\r\n")
    let w := c3_free w client_u
    (none, w)
  else
    (some client_u, w)

/-! ## Auxiliary definitions for the statements -/

/-- A world whose heap keeps every block of another. -/
def World.keeps (w' w : World) : Prop :=
  ∀ a o, w.heap.lookup a = some o → w'.heap.lookup a = some o

/-- A stand-in for the library: an atom jams to one byte, a cell to ten bytes;
`scot` returns its sample, the time is the seconds, the mug the atom itself. -/
def envT : Env :=
  { jam := fun n =>
      match n with
      | .atom a => [a % 256]
      | .cell _ _ => [1, 2, 3, 4, 5, 6, 7, 8, 9, 10],
    scot := fun _ b => b,
    u3_time_in_tv := fun tv => .atom tv.1,
    u3r_mug := fun n =>
      match n with
      | .atom a => a % 2 ^ 31
      | .cell _ _ => 0,
    uv_strerror := fun _ => "no such file or directory" }

/-- The wire `/http-client`. -/
def wireT : Noun := .cell (.atom (cord "http-client")) (.atom 0)

/-- A card that `envT` jams to ten bytes. -/
def cardT : Noun := .cell (.atom 1) (.atom 2)

/-- The world after a successful start from the empty world at second 7: the
driver is the block at address 1, its stdin pipe and process handle are open. -/
def liveT : World := (u3_cttp_io_init envT (7, 0) 0 World.empty).2

/-- The status `UV_ENOENT`. -/
def UV_ENOENT : Int := -2

/-- An assignment at an address no live block has changes nothing. -/
theorem map_store_fresh (h : List (Nat × Obj)) (a : Nat) (o : Obj)
    (hf : ∀ p ∈ h, p.1 < a) :
    h.map (fun p => if p.1 = a then (a, o) else p) = h := by
  induction h with
  | nil => rfl
  | cons p t ih =>
    have hp : p.1 ≠ a := Nat.ne_of_lt (hf p (List.mem_cons_self _ _))
    have ht : ∀ q ∈ t, q.1 < a := fun q hq => hf q (List.mem_cons_of_mem _ hq)
    simp [hp, ih ht]

/-- Freeing an address no live block has removes nothing. -/
theorem filter_free_fresh (h : List (Nat × Obj)) (a : Nat)
    (hf : ∀ p ∈ h, p.1 < a) :
    h.filter (fun p => p.1 != a) = h := by
  induction h with
  | nil => rfl
  | cons p t ih =>
    have hp : p.1 ≠ a := Nat.ne_of_lt (hf p (List.mem_cons_self _ _))
    have ht : ∀ q ∈ t, q.1 < a := fun q hq => hf q (List.mem_cons_of_mem _ hq)
    simp [hp, ih ht]

/-- No live block sits at an address at or above the frontier. -/
theorem lookup_fresh (h : List (Nat × Obj)) (a b : Nat)
    (hf : ∀ p ∈ h, p.1 < a) (hab : a ≤ b) : h.lookup b = none := by
  rw [List.lookup_eq_none_iff]
  intro p hp
  have := hf p hp
  simp
  omega

/-- After a free, the freed address has no block and every other address
keeps its block. -/
theorem lookup_free (h : List (Nat × Obj)) (a b : Nat) :
    (h.filter (fun p => p.1 != a)).lookup b = if b = a then none else h.lookup b := by
  induction h with
  | nil => simp
  | cons p t ih =>
    obtain ⟨k, o⟩ := p
    by_cases hk : k = a
    · subst hk
      by_cases hb : b = k
      · subst hb; simp [List.filter_cons, ih]
      · have hbk : (b == k) = false := by simpa using hb
        simp [List.filter_cons, ih, List.lookup, hb, hbk]
    · by_cases hb : b = a
      · subst hb
        have hbk : (b == k) = false := by simpa using fun e => hk e.symm
        simp [List.filter_cons, hk, List.lookup, hbk, ih]
      · by_cases hbk : b = k
        · subst hbk; simp [List.filter_cons, hk, hb]
        · have hbk2 : (b == k) = false := by simpa using hbk
          simp [List.filter_cons, hk, List.lookup, hbk2, ih, hb]

/-- Appending blocks keeps every block that was live. -/
theorem keeps_append (w w' : World) (ext : List (Nat × Obj))
    (h : w'.heap = w.heap ++ ext) : w'.keeps w := by
  intro a o ha
  rw [h, List.lookup_append, ha]
  rfl

/-- Reading a `c3_d` back from its bytes. -/
theorem bytes_to_atom_c3_d_bytes (n : Nat) (h : n < 2 ^ 64) :
    bytes_to_atom (c3_d_bytes n) = n := by
  simp only [c3_d_bytes, bytes_to_atom]
  omega

/-- The empty world is well formed. -/
theorem WF_empty : World.empty.WF := by
  intro p hp
  simp [World.empty] at hp

/-- Allocation keeps the heap well formed. -/
theorem malloc_WF (w : World) (o : Obj) (hw : w.WF) : (c3_malloc w o).2.WF := by
  intro p hp
  simp only [c3_malloc, List.mem_append, List.mem_singleton] at hp
  show p.1 < w.brk + 1
  rcases hp with hp | hp
  · have := hw p hp; omega
  · subst hp; show w.brk < w.brk + 1; omega

/-- An assignment keeps the heap well formed. -/
theorem store_WF (w : World) (a : Nat) (o : Obj) (hw : w.WF) : (w.store a o).WF := by
  intro p hp
  simp only [World.store, List.mem_map] at hp
  obtain ⟨q, hq, e⟩ := hp
  have := hw q hq
  show p.1 < w.brk
  by_cases hqa : q.1 = a
  · rw [if_pos hqa] at e; subst e; show a < w.brk; omega
  · rw [if_neg hqa] at e; subst e; exact this

/-- Freeing keeps the heap well formed. -/
theorem free_WF (w : World) (a : Nat) (hw : w.WF) : (c3_free w a).WF := by
  intro p hp
  simp only [c3_free, List.mem_filter] at hp
  exact hw p hp.1

/-- Every kick keeps the heap well formed. -/
theorem kick_WF (E : Env) (ret_i : Int) (w : World) (driver_u : Nat)
    (wire card : Noun) (hw : w.WF) :
    (_driver_kick E ret_i w driver_u wire card).2.WF := by
  cases wire with
  | atom a => exact hw
  | cell hd tl =>
    by_cases h : u3r_sing_c "http-client" hd = c3n
    · simp only [_driver_kick, u3r_cell, h, if_true]
      exact hw
    · simp only [_driver_kick, u3r_cell, h, if_false, u3s_jam_xeno, uv_write, u3z]
      exact malloc_WF _ _ (store_WF _ _ _ (store_WF _ _ _ (store_WF _ _ _
        (malloc_WF _ _ (malloc_WF _ _ hw)))))

/-- The constructor keeps the heap well formed. -/
theorem init_WF (E : Env) (tv : Nat × Nat) (ret_i : Int) (w : World) (hw : w.WF) :
    (u3_cttp_io_init E tv ret_i w).2.WF := by
  have h2 : (((c3_calloc_client w).2.store w.brk
      (.client ⟨⟨c3__cttp, c3y, some ._driver_talk, some ._driver_kick, some ._driver_exit⟩, 0⟩)).store
      w.brk (.client ⟨⟨c3__cttp, c3y, some ._driver_talk, some ._driver_kick,
        some ._driver_exit⟩, E.u3r_mug (E.u3_time_in_tv tv) % 2 ^ 32⟩)).WF :=
    store_WF _ _ _ (store_WF _ _ _ (malloc_WF _ _ hw))
  by_cases hret : ret_i = 0
  · subst hret
    simp only [u3_cttp_io_init, u3z, uv_pipe_init, uv_spawn]
    exact h2
  · have hne : ¬ (0 = ret_i) := fun e => hret e.symm
    simp only [u3_cttp_io_init, u3z, uv_pipe_init, uv_spawn, if_neg hret, fprintf_stderr]
    simp only [ne_eq, hne, not_false_eq_true, if_true]
    exact free_WF _ _ h2

/-- A segment that reads in a heap reads the same in a heap that keeps its blocks. -/
theorem read_mono (w w' : World) (h : w'.keeps w) (b : uv_buf_t) (x : List Nat)
    (hr : w.read b = some x) : w'.read b = some x := by
  unfold World.read at hr ⊢
  cases hb : b.base with
  | len_d a =>
    rw [hb] at hr; simp only at hr ⊢
    cases hl : w.heap.lookup a with
    | none => simp [hl] at hr
    | some o => rw [h a o hl]; rw [hl] at hr; exact hr
  | type_y a =>
    rw [hb] at hr; simp only at hr ⊢
    cases hl : w.heap.lookup a with
    | none => simp [hl] at hr
    | some o => rw [h a o hl]; rw [hl] at hr; exact hr
  | bytes a =>
    rw [hb] at hr; simp only at hr ⊢
    cases hl : w.heap.lookup a with
    | none => simp [hl] at hr
    | some o => rw [h a o hl]; rw [hl] at hr; exact hr

/-- A buffer array that reads in a heap reads the same in a heap that keeps its blocks. -/
theorem gather_mono (w w' : World) (h : w'.keeps w) (bs : List uv_buf_t) :
    ∀ x, w.gather bs = some x → w'.gather bs = some x := by
  induction bs with
  | nil => intro x hx; simpa [World.gather] using hx
  | cons b t ih =>
    intro x hx
    simp only [World.gather] at hx ⊢
    cases hb : w.read b with
    | none => simp [hb] at hx
    | some y =>
      cases ht : w.gather t with
      | none => simp [hb, ht] at hx
      | some z =>
        rw [read_mono w w' h b y hb, ih z ht]
        simpa [hb, ht] using hx

/-- The bytes of a list of writes are the same in a heap that keeps the blocks. -/
theorem sent_mono (w w' : World) (h : w'.keeps w) (s : Handle) (cs : List WriteCall) :
    ∀ x, w.sent s cs = some x → w'.sent s cs = some x := by
  induction cs with
  | nil => intro x hx; simpa [World.sent] using hx
  | cons c t ih =>
    intro x hx
    simp only [World.sent] at hx ⊢
    split at hx
    · rename_i hc
      rw [if_pos hc]
      cases hb : w.gather c.bufs with
      | none => simp [hb] at hx
      | some y =>
        cases ht : w.sent s t with
        | none => simp [hb, ht] at hx
        | some z =>
          rw [gather_mono w w' h c.bufs y hb, ih z ht]
          simpa [hb, ht] using hx
    · rename_i hc
      rw [if_neg hc]
      exact ih x hx

/-- The bytes of two lists of writes, one after the other. -/
theorem sent_append (w : World) (s : Handle) (cs ds : List WriteCall) (x y : List Nat)
    (hx : w.sent s cs = some x) (hy : w.sent s ds = some y) :
    w.sent s (cs ++ ds) = some (x ++ y) := by
  induction cs generalizing x with
  | nil => simp [World.sent] at hx; subst hx; simpa using hy
  | cons c t ih =>
    simp only [World.sent, List.cons_append] at hx ⊢
    split at hx
    · rename_i hc
      rw [if_pos hc]
      cases hb : w.gather c.bufs with
      | none => simp [hb] at hx
      | some u =>
        cases ht : w.sent s t with
        | none => simp [hb, ht] at hx
        | some z =>
          simp only [List.append_eq, ih z ht]
          simp [hb, ht] at hx
          simp [← hx]
    · rename_i hc
      rw [if_neg hc]
      exact ih x hx

/-- The world after a kick whose wire head is the routing tag. -/
theorem kick_accept (E : Env) (ret_i : Int) (w : World) (driver_u : Nat)
    (tl card : Noun) (hw : w.WF) (hL : (E.jam card).length + 1 < 2 ^ 64) :
    (_driver_kick E ret_i w driver_u (.cell (.atom (cord "http-client")) tl) card).2
      = { w with
          heap := w.heap ++
            [ (w.brk, .io_req ⟨(E.jam card).length + 1, 0, w.brk + 1⟩),
              (w.brk + 1, .bytes (E.jam card)),
              (w.brk + 2, .write_req) ],
          brk := w.brk + 3,
          writes := w.writes ++
            [ ⟨w.brk + 2, ⟨driver_u, .stdin_u⟩,
               [ ⟨.len_d w.brk, 8⟩, ⟨.type_y w.brk, 1⟩,
                 ⟨.bytes (w.brk + 1), (E.jam card).length⟩ ],
               ._write_cb, ret_i⟩ ],
          lost := w.lost ++ [.cell (.atom (cord "http-client")) tl, card] } := by
  have h1 : (E.jam card).length % 2 ^ 64 = (E.jam card).length :=
    Nat.mod_eq_of_lt (by omega)
  have h2 : ((E.jam card).length + 1) % 2 ^ 64 = (E.jam card).length + 1 :=
    Nat.mod_eq_of_lt hL
  have h3 : ((E.jam card).length + 1 + 2 ^ 64 - 1) % 2 ^ 64 = (E.jam card).length := by
    omega
  simp [_driver_kick, u3r_cell, u3r_sing_c, c3_malloc, u3s_jam_xeno, World.store, uv_write,
    u3z, IO_REQ_HTTP_CLIENT, h1, h2, h3, map_store_fresh _ _ _ hw]
  exact ⟨by omega, by omega⟩

/-- An accepted kick keeps every block that was live. -/
theorem kick_keeps (E : Env) (ret_i : Int) (w : World) (driver_u : Nat)
    (tl card : Noun) (hw : w.WF) (hL : (E.jam card).length + 1 < 2 ^ 64) :
    (_driver_kick E ret_i w driver_u (.cell (.atom (cord "http-client")) tl) card).2.keeps w := by
  apply keeps_append _ _
    [ (w.brk, .io_req ⟨(E.jam card).length + 1, 0, w.brk + 1⟩),
      (w.brk + 1, .bytes (E.jam card)),
      (w.brk + 2, .write_req) ]
  rw [kick_accept E ret_i w driver_u tl card hw hL]

/-- The two blocks an accepted kick fills: the request record and the jam buffer. -/
theorem kick_lookup (E : Env) (ret_i : Int) (w : World) (driver_u : Nat)
    (tl card : Noun) (hw : w.WF) (hL : (E.jam card).length + 1 < 2 ^ 64) :
    (_driver_kick E ret_i w driver_u (.cell (.atom (cord "http-client")) tl) card).2.heap.lookup
        w.brk = some (.io_req ⟨(E.jam card).length + 1, 0, w.brk + 1⟩)
    ∧ (_driver_kick E ret_i w driver_u (.cell (.atom (cord "http-client")) tl) card).2.heap.lookup
        (w.brk + 1) = some (.bytes (E.jam card)) := by
  rw [kick_accept E ret_i w driver_u tl card hw hL]
  simp only [List.lookup_append, lookup_fresh _ _ _ hw (Nat.le_refl _),
    lookup_fresh _ _ _ hw (Nat.le_succ _)]
  have hne : (w.brk + 1 == w.brk) = false := by simp
  constructor
  · simp [List.lookup]
  · simp [List.lookup, hne]

/-- The three segments of an accepted kick, read from the heap it leaves. -/
theorem kick_read (E : Env) (ret_i : Int) (w : World) (driver_u : Nat)
    (tl card : Noun) (hw : w.WF) (hL : (E.jam card).length + 1 < 2 ^ 64) :
    (_driver_kick E ret_i w driver_u (.cell (.atom (cord "http-client")) tl) card).2.read
        ⟨.len_d w.brk, 8⟩ = some (c3_d_bytes ((E.jam card).length + 1))
    ∧ (_driver_kick E ret_i w driver_u (.cell (.atom (cord "http-client")) tl) card).2.read
        ⟨.type_y w.brk, 1⟩ = some [0]
    ∧ (_driver_kick E ret_i w driver_u (.cell (.atom (cord "http-client")) tl) card).2.read
        ⟨.bytes (w.brk + 1), (E.jam card).length⟩ = some (E.jam card) := by
  obtain ⟨h1, h2⟩ := kick_lookup E ret_i w driver_u tl card hw hL
  refine ⟨?_, ?_, ?_⟩
  · simp [World.read, h1, c3_d_bytes]
  · simp [World.read, h1]
  · simp [World.read, h2]

/-- The frame of an accepted kick, read from the heap it leaves. -/
theorem kick_gather (E : Env) (ret_i : Int) (w : World) (driver_u : Nat)
    (tl card : Noun) (hw : w.WF) (hL : (E.jam card).length + 1 < 2 ^ 64) :
    (_driver_kick E ret_i w driver_u (.cell (.atom (cord "http-client")) tl) card).2.gather
        [ ⟨.len_d w.brk, 8⟩, ⟨.type_y w.brk, 1⟩, ⟨.bytes (w.brk + 1), (E.jam card).length⟩ ]
      = some (c3_d_bytes ((E.jam card).length + 1) ++ [0] ++ E.jam card) := by
  obtain ⟨h1, h2, h3⟩ := kick_read E ret_i w driver_u tl card hw hL
  simp [World.gather, h1, h2, h3]

/-- A kick whose wire is an atom or has another head only releases its two
arguments. -/
theorem kick_reject (E : Env) (ret_i : Int) (w : World) (driver_u : Nat) (wire card : Noun)
    (h : ∀ tl, wire ≠ Noun.cell (Noun.atom (cord "http-client")) tl) :
    _driver_kick E ret_i w driver_u wire card
      = (c3n, { w with lost := w.lost ++ [wire, card] }) := by
  cases wire with
  | atom a => simp [_driver_kick, u3r_cell, u3z]
  | cell hd tl =>
    have hne : hd ≠ Noun.atom (cord "http-client") := fun e => h tl (by rw [e])
    simp [_driver_kick, u3r_cell, u3r_sing_c, hne, u3z]

/-! ## The claims -/

/-- C1: for a card whose jam is a payload of `L` bytes (with `L + 1` fitting a
`c3_d`) and a wire whose head is `"http-client"`, `_driver_kick` makes exactly
one call of `uv_write`, on the driver's stdin stream, with three segments in
this order: the 8 bytes of `len_d`, which hold `L + 1`; the one byte of
`type_y`, which is 0 (`IO_REQ_HTTP_CLIENT`); the `L` payload bytes. The
request record holds `len_d = 1 + L`, and the frame is `8 + 1 + L` bytes. -/
theorem driver_kick_frame (E : Env) (ret_i : Int) (w : World) (driver_u : Nat)
    (tl card : Noun) (hw : w.WF) (hL : (E.jam card).length + 1 < 2 ^ 64) :
    (_driver_kick E ret_i w driver_u (.cell (.atom (cord "http-client")) tl) card).2.writes
      = w.writes ++
          [ ⟨w.brk + 2, ⟨driver_u, .stdin_u⟩,
             [ ⟨.len_d w.brk, 8⟩, ⟨.type_y w.brk, 1⟩,
               ⟨.bytes (w.brk + 1), (E.jam card).length⟩ ],
             ._write_cb, ret_i⟩ ]
    ∧ (_driver_kick E ret_i w driver_u (.cell (.atom (cord "http-client")) tl) card).2.heap.lookup
        w.brk = some (.io_req ⟨1 + (E.jam card).length, IO_REQ_HTTP_CLIENT, w.brk + 1⟩)
    ∧ (_driver_kick E ret_i w driver_u (.cell (.atom (cord "http-client")) tl) card).2.read
        ⟨.len_d w.brk, 8⟩ = some (c3_d_bytes ((E.jam card).length + 1))
    ∧ bytes_to_atom (c3_d_bytes ((E.jam card).length + 1)) = (E.jam card).length + 1
    ∧ (_driver_kick E ret_i w driver_u (.cell (.atom (cord "http-client")) tl) card).2.read
        ⟨.type_y w.brk, 1⟩ = some [0]
    ∧ (_driver_kick E ret_i w driver_u (.cell (.atom (cord "http-client")) tl) card).2.read
        ⟨.bytes (w.brk + 1), (E.jam card).length⟩ = some (E.jam card)
    ∧ (_driver_kick E ret_i w driver_u (.cell (.atom (cord "http-client")) tl) card).2.gather
        [ ⟨.len_d w.brk, 8⟩, ⟨.type_y w.brk, 1⟩, ⟨.bytes (w.brk + 1), (E.jam card).length⟩ ]
      = some (c3_d_bytes ((E.jam card).length + 1) ++ [0] ++ E.jam card)
    ∧ (c3_d_bytes ((E.jam card).length + 1) ++ [0] ++ E.jam card).length
      = 8 + 1 + (E.jam card).length := by
  obtain ⟨h1, h2, h3⟩ := kick_read E ret_i w driver_u tl card hw hL
  refine ⟨?_, ?_, h1, bytes_to_atom_c3_d_bytes _ hL, h2, h3,
    kick_gather E ret_i w driver_u tl card hw hL, ?_⟩
  · rw [kick_accept E ret_i w driver_u tl card hw hL]
  · rw [(kick_lookup E ret_i w driver_u tl card hw hL).1, Nat.add_comm]
    rfl
  · simp [c3_d_bytes]; omega

/-- Witness of C1: the ten-byte payload of `cardT` on the empty world gives the
length field 11, the type byte 0, and 19 bytes in all. -/
theorem driver_kick_frame_witness :
    World.empty.WF ∧ (envT.jam cardT).length = 10
    ∧ (_driver_kick envT 0 World.empty 1 wireT cardT).2.writes
      = [ ⟨3, ⟨1, .stdin_u⟩, [ ⟨.len_d 1, 8⟩, ⟨.type_y 1, 1⟩, ⟨.bytes 2, 10⟩ ], ._write_cb, 0⟩ ]
    ∧ (_driver_kick envT 0 World.empty 1 wireT cardT).2.heap.lookup 1
      = some (.io_req ⟨11, 0, 2⟩)
    ∧ (_driver_kick envT 0 World.empty 1 wireT cardT).2.read ⟨.len_d 1, 8⟩
      = some [11, 0, 0, 0, 0, 0, 0, 0]
    ∧ bytes_to_atom [11, 0, 0, 0, 0, 0, 0, 0] = 11
    ∧ (_driver_kick envT 0 World.empty 1 wireT cardT).2.read ⟨.type_y 1, 1⟩ = some [0]
    ∧ (_driver_kick envT 0 World.empty 1 wireT cardT).2.read ⟨.bytes 2, 10⟩
      = some [1, 2, 3, 4, 5, 6, 7, 8, 9, 10]
    ∧ (_driver_kick envT 0 World.empty 1 wireT cardT).2.gather
        [ ⟨.len_d 1, 8⟩, ⟨.type_y 1, 1⟩, ⟨.bytes 2, 10⟩ ]
      = some [11, 0, 0, 0, 0, 0, 0, 0, 0, 1, 2, 3, 4, 5, 6, 7, 8, 9, 10]
    ∧ [11, 0, 0, 0, 0, 0, 0, 0, 0, 1, 2, 3, 4, 5, 6, 7, 8, 9, 10].length = 19 :=
  ⟨by decide, by decide,
    driver_kick_frame envT 0 World.empty 1 (.atom 0) cardT (by decide) (by decide)⟩

/-- C2: for a wire that is not a cell, or whose head is not `"http-client"`,
and any card, `_driver_kick` returns `c3n` and changes nothing but the
reference counts of its two arguments: the heap (so the driver instance) is as
before, no block is allocated, no write is submitted. -/
theorem driver_kick_reject (E : Env) (ret_i : Int) (w : World) (driver_u : Nat)
    (wire card : Noun)
    (h : u3r_cell wire = none
      ∨ ∃ hd tl, wire = Noun.cell hd tl ∧ hd ≠ u3i_string "http-client") :
    _driver_kick E ret_i w driver_u wire card
      = (c3n, { w with lost := w.lost ++ [wire, card] })
    ∧ (_driver_kick E ret_i w driver_u wire card).1 = c3n
    ∧ (_driver_kick E ret_i w driver_u wire card).2.heap = w.heap
    ∧ (_driver_kick E ret_i w driver_u wire card).2.brk = w.brk
    ∧ (_driver_kick E ret_i w driver_u wire card).2.writes = w.writes
    ∧ (_driver_kick E ret_i w driver_u wire card).2.freed = w.freed
    ∧ (_driver_kick E ret_i w driver_u wire card).2.handles = w.handles
    ∧ (_driver_kick E ret_i w driver_u wire card).2.planned = w.planned := by
  have hne : ∀ tl, wire ≠ Noun.cell (Noun.atom (cord "http-client")) tl := by
    intro tl e
    rcases h with h | ⟨hd, tl2, h1, h2⟩
    · rw [e] at h; simp [u3r_cell] at h
    · rw [e] at h1
      injection h1 with h3 _
      exact h2 (by rw [← h3]; rfl)
  have e := kick_reject E ret_i w driver_u wire card hne
  rw [e]
  exact ⟨rfl, rfl, rfl, rfl, rfl, rfl, rfl, rfl⟩

/-- Witness of C2: the wire `/ames` on the live driver. -/
theorem driver_kick_reject_witness :
    _driver_kick envT 0 liveT 1 (.cell (.atom (cord "ames")) (.atom 0)) cardT
      = (c3n, { liveT with lost := liveT.lost ++ [.cell (.atom (cord "ames")) (.atom 0), cardT] })
    ∧ (_driver_kick envT 0 liveT 1 (.cell (.atom (cord "ames")) (.atom 0)) cardT).1 = c3n
    ∧ (_driver_kick envT 0 liveT 1 (.cell (.atom (cord "ames")) (.atom 0)) cardT).2.heap
      = liveT.heap
    ∧ (_driver_kick envT 0 liveT 1 (.cell (.atom (cord "ames")) (.atom 0)) cardT).2.brk = 2
    ∧ (_driver_kick envT 0 liveT 1 (.cell (.atom (cord "ames")) (.atom 0)) cardT).2.writes = []
    ∧ (_driver_kick envT 0 liveT 1 (.cell (.atom (cord "ames")) (.atom 0)) cardT).2.freed = []
    ∧ (_driver_kick envT 0 liveT 1 (.cell (.atom (cord "ames")) (.atom 0)) cardT).2.handles
      = [⟨1, .stdin_u⟩, ⟨1, .proc_u⟩]
    ∧ (_driver_kick envT 0 liveT 1 (.cell (.atom (cord "ames")) (.atom 0)) cardT).2.planned = [] :=
  driver_kick_reject envT 0 liveT 1 (.cell (.atom (cord "ames")) (.atom 0)) cardT
    (Or.inr ⟨.atom (cord "ames"), .atom 0, rfl, by decide⟩)

/-- C3: at the accepted kick of card 5 on the live driver, the blocks of the
frame (the `_io_req` at 2, its jammed payload at 3) and the write request (at
4) are all live and nothing was freed; after `_write_cb` runs for that write
the only address freed is the write request, and the `_io_req` record and the
jammed payload are still on the heap: the frame buffer is not released. -/
theorem write_cb_keeps_frame :
    (_driver_kick envT 0 liveT 1 wireT (.atom 5)).2.writes
      = [ ⟨4, ⟨1, .stdin_u⟩, [ ⟨.len_d 2, 8⟩, ⟨.type_y 2, 1⟩, ⟨.bytes 3, 1⟩ ], ._write_cb, 0⟩ ]
    ∧ (_driver_kick envT 0 liveT 1 wireT (.atom 5)).2.freed = []
    ∧ (_driver_kick envT 0 liveT 1 wireT (.atom 5)).2.heap.lookup 4 = some .write_req
    ∧ (_write_cb (_driver_kick envT 0 liveT 1 wireT (.atom 5)).2 4 0).freed = [4]
    ∧ (_write_cb (_driver_kick envT 0 liveT 1 wireT (.atom 5)).2 4 0).heap.lookup 4 = none
    ∧ (_write_cb (_driver_kick envT 0 liveT 1 wireT (.atom 5)).2 4 0).heap.lookup 2
      = some (.io_req ⟨2, 0, 3⟩)
    ∧ (_write_cb (_driver_kick envT 0 liveT 1 wireT (.atom 5)).2 4 0).heap.lookup 3
      = some (.bytes [5]) := by
  decide

/-- C4: when `uv_spawn` returns a non-zero status, `u3_cttp_io_init` returns
`NULL`; the instance record it allocated (at the frontier address) is freed,
so the heap is as before the call; no event is planned and no write is
submitted. -/
theorem init_spawn_failure (E : Env) (tv : Nat × Nat) (ret_i : Int) (w : World)
    (hw : w.WF) (hret : ret_i ≠ 0) :
    (u3_cttp_io_init E tv ret_i w).1 = none
    ∧ (u3_cttp_io_init E tv ret_i w).2.heap = w.heap
    ∧ (u3_cttp_io_init E tv ret_i w).2.heap.lookup w.brk = none
    ∧ (u3_cttp_io_init E tv ret_i w).2.freed = w.freed ++ [w.brk]
    ∧ (u3_cttp_io_init E tv ret_i w).2.planned = w.planned
    ∧ (u3_cttp_io_init E tv ret_i w).2.writes = w.writes := by
  have hne : ¬ (0 = ret_i) := fun e => hret e.symm
  have hheap : (u3_cttp_io_init E tv ret_i w).2.heap = w.heap := by
    simp [u3_cttp_io_init, c3_calloc_client, c3_malloc, World.store, u3z, uv_pipe_init,
      uv_spawn, hret, hne, fprintf_stderr, c3_free, map_store_fresh _ _ _ hw,
      filter_free_fresh _ _ hw]
  refine ⟨?_, hheap, ?_, ?_, ?_, ?_⟩
  · simp [u3_cttp_io_init, uv_spawn, hret, hne]
  · rw [hheap]; exact lookup_fresh _ _ _ hw (Nat.le_refl _)
  · simp [u3_cttp_io_init, c3_calloc_client, c3_malloc, World.store, u3z, uv_pipe_init,
      uv_spawn, hret, hne, fprintf_stderr, c3_free]
  · simp [u3_cttp_io_init, c3_calloc_client, c3_malloc, World.store, u3z, uv_pipe_init,
      uv_spawn, hret, hne, fprintf_stderr, c3_free]
  · simp [u3_cttp_io_init, c3_calloc_client, c3_malloc, World.store, u3z, uv_pipe_init,
      uv_spawn, hret, hne, fprintf_stderr, c3_free]

/-- Witness of C4: the executable is missing (`UV_ENOENT`) on the empty world. -/
theorem init_spawn_failure_witness :
    World.empty.WF ∧ UV_ENOENT ≠ 0
    ∧ (u3_cttp_io_init envT (7, 0) UV_ENOENT World.empty).1 = none
    ∧ (u3_cttp_io_init envT (7, 0) UV_ENOENT World.empty).2.heap = []
    ∧ (u3_cttp_io_init envT (7, 0) UV_ENOENT World.empty).2.heap.lookup 1 = none
    ∧ (u3_cttp_io_init envT (7, 0) UV_ENOENT World.empty).2.freed = [1]
    ∧ (u3_cttp_io_init envT (7, 0) UV_ENOENT World.empty).2.planned = []
    ∧ (u3_cttp_io_init envT (7, 0) UV_ENOENT World.empty).2.writes = [] :=
  ⟨by decide, by decide,
    init_spawn_failure envT (7, 0) UV_ENOENT World.empty (by decide) (by decide)⟩

/-- C5: when the spawn fails with `UV_ENOENT` on the empty world,
`u3_cttp_io_init` returns `NULL` with the stdin pipe handle and the process
handle of the new record both still registered on the loop, although the
record that embeds them (address 1) has been freed and is no longer on the
heap: the pipe opened before the spawn attempt is not closed. -/
theorem spawn_failure_leaves_pipe_open :
    (u3_cttp_io_init envT (7, 0) UV_ENOENT World.empty).1 = none
    ∧ (u3_cttp_io_init envT (7, 0) UV_ENOENT World.empty).2.handles
      = [⟨1, .stdin_u⟩, ⟨1, .proc_u⟩]
    ∧ (u3_cttp_io_init envT (7, 0) UV_ENOENT World.empty).2.freed = [1]
    ∧ (u3_cttp_io_init envT (7, 0) UV_ENOENT World.empty).2.heap.lookup 1 = none
    ∧ (u3_cttp_io_init envT (7, 0) UV_ENOENT World.empty).2.heap = [] := by
  decide

/-- C6: two accepted kicks, A then B, on the same driver put on its stdin
stream the complete frame of A followed by the complete frame of B, after
whatever was queued before: each frame is the 8 bytes of its length field, the
type byte 0 and its payload, and no byte of B comes before a byte of A. -/
theorem driver_kick_order (E : Env) (w : World) (driver_u : Nat)
    (tlA cardA tlB cardB : Noun) (old : List Nat) (hw : w.WF)
    (hA : (E.jam cardA).length + 1 < 2 ^ 64) (hB : (E.jam cardB).length + 1 < 2 ^ 64)
    (hq : w.queued ⟨driver_u, .stdin_u⟩ = some old) :
    (_driver_kick E 0
        (_driver_kick E 0 w driver_u (.cell (.atom (cord "http-client")) tlA) cardA).2
        driver_u (.cell (.atom (cord "http-client")) tlB) cardB).2.queued ⟨driver_u, .stdin_u⟩
      = some (old
          ++ (c3_d_bytes ((E.jam cardA).length + 1) ++ [0] ++ E.jam cardA)
          ++ (c3_d_bytes ((E.jam cardB).length + 1) ++ [0] ++ E.jam cardB))
    ∧ (_driver_kick E 0
        (_driver_kick E 0 w driver_u (.cell (.atom (cord "http-client")) tlA) cardA).2
        driver_u (.cell (.atom (cord "http-client")) tlB) cardB).2.writes
      = w.writes ++
          [ ⟨w.brk + 2, ⟨driver_u, .stdin_u⟩,
             [ ⟨.len_d w.brk, 8⟩, ⟨.type_y w.brk, 1⟩,
               ⟨.bytes (w.brk + 1), (E.jam cardA).length⟩ ],
             ._write_cb, 0⟩,
            ⟨w.brk + 5, ⟨driver_u, .stdin_u⟩,
             [ ⟨.len_d (w.brk + 3), 8⟩, ⟨.type_y (w.brk + 3), 1⟩,
               ⟨.bytes (w.brk + 4), (E.jam cardB).length⟩ ],
             ._write_cb, 0⟩ ] := by
  have hw1 := kick_WF E 0 w driver_u (.cell (.atom (cord "http-client")) tlA) cardA hw
  have e1 := kick_keeps E 0 w driver_u tlA cardA hw hA
  have g1 := kick_gather E 0 w driver_u tlA cardA hw hA
  have a1 := kick_accept E 0 w driver_u tlA cardA hw hA
  generalize (_driver_kick E 0 w driver_u (.cell (.atom (cord "http-client")) tlA) cardA).2
    = w1 at hw1 e1 g1 a1 ⊢
  have e2 := kick_keeps E 0 w1 driver_u tlB cardB hw1 hB
  have g2 := kick_gather E 0 w1 driver_u tlB cardB hw1 hB
  have a2 := kick_accept E 0 w1 driver_u tlB cardB hw1 hB
  generalize (_driver_kick E 0 w1 driver_u (.cell (.atom (cord "http-client")) tlB) cardB).2
    = w2 at e2 g2 a2 ⊢
  have hwr : w2.writes = w.writes ++
      [ ⟨w.brk + 2, ⟨driver_u, .stdin_u⟩,
         [ ⟨.len_d w.brk, 8⟩, ⟨.type_y w.brk, 1⟩, ⟨.bytes (w.brk + 1), (E.jam cardA).length⟩ ],
         ._write_cb, 0⟩ ] ++
      [ ⟨w1.brk + 2, ⟨driver_u, .stdin_u⟩,
         [ ⟨.len_d w1.brk, 8⟩, ⟨.type_y w1.brk, 1⟩, ⟨.bytes (w1.brk + 1), (E.jam cardB).length⟩ ],
         ._write_cb, 0⟩ ] := by
    rw [a2]; simp only; rw [a1]
  have hb1 : w1.brk = w.brk + 3 := by rw [a1]
  constructor
  · unfold World.queued at hq ⊢
    rw [hwr]
    have s0 := sent_mono w1 w2 e2 _ _ _ (sent_mono w w1 e1 _ _ _ hq)
    have gA := gather_mono w1 w2 e2 _ _ g1
    apply sent_append
    · apply sent_append _ _ _ _ _ _ s0
      simp [World.sent, gA]
    · simp [World.sent, g2]
  · rw [hwr, hb1]
    simp

/-- Witness of C6: on the live driver, the ten-byte card and then the card 5:
all 19 bytes of the first frame come before the 10 bytes of the second. -/
theorem driver_kick_order_witness :
    liveT.WF ∧ liveT.queued ⟨1, .stdin_u⟩ = some []
    ∧ (_driver_kick envT 0 (_driver_kick envT 0 liveT 1 wireT cardT).2 1 wireT
        (.atom 5)).2.queued ⟨1, .stdin_u⟩
      = some ([] ++ [11, 0, 0, 0, 0, 0, 0, 0, 0, 1, 2, 3, 4, 5, 6, 7, 8, 9, 10]
          ++ [2, 0, 0, 0, 0, 0, 0, 0, 0, 5])
    ∧ (_driver_kick envT 0 (_driver_kick envT 0 liveT 1 wireT cardT).2 1 wireT
        (.atom 5)).2.writes
      = [ ⟨4, ⟨1, .stdin_u⟩, [ ⟨.len_d 2, 8⟩, ⟨.type_y 2, 1⟩, ⟨.bytes 3, 10⟩ ], ._write_cb, 0⟩,
          ⟨7, ⟨1, .stdin_u⟩, [ ⟨.len_d 5, 8⟩, ⟨.type_y 5, 1⟩, ⟨.bytes 6, 1⟩ ], ._write_cb, 0⟩ ] :=
  ⟨by decide, by decide,
    driver_kick_order envT liveT 1 (.atom 0) cardT (.atom 0) (.atom 5) [] (by decide)
      (by decide) (by decide) (by decide)⟩

/-- C7: after `_driver_exit` on the started driver the instance record
(address 1) is freed and no longer on the heap, while the process handle and
the stdin stream handle it embedded are both still registered on the loop,
exactly as before the call: neither handle is closed. -/
theorem driver_exit_closes_nothing :
    liveT.heap.lookup 1 = some (.client ⟨⟨c3__cttp, c3y, some ._driver_talk,
      some ._driver_kick, some ._driver_exit⟩, 7⟩)
    ∧ liveT.handles = [⟨1, .stdin_u⟩, ⟨1, .proc_u⟩]
    ∧ (_driver_exit liveT 1).freed = [1]
    ∧ (_driver_exit liveT 1).heap.lookup 1 = none
    ∧ (_driver_exit liveT 1).handles = [⟨1, .stdin_u⟩, ⟨1, .proc_u⟩]
    ∧ ¬ ((⟨1, .proc_u⟩ : Handle) ∉ (_driver_exit liveT 1).handles
          ∧ (⟨1, .stdin_u⟩ : Handle) ∉ (_driver_exit liveT 1).handles) := by
  decide

/-- C8: for a driver instance, one call of `_driver_talk` appends exactly one
event to the kernel queue: its target is `%i`, its wire is
`["http-client" (scot %uv inst_num_l) ~]`, its card is `[%born ~]`; nothing
else changes, so the driver instance is as before. -/
theorem driver_talk_born (E : Env) (w : World) (driver_u : Nat) (c : _client)
    (h : w.heap.lookup driver_u = some (.client c)) :
    _driver_talk E w driver_u = some { w with planned := w.planned ++
      [(driver_u, ⟨0, .atom (cord "i"),
         .cell (.atom (cord "http-client"))
           (.cell (E.scot (.atom (cord "uv")) (.atom c.inst_num_l)) (.atom 0)),
         .cell (.atom (cord "born")) (.atom 0)⟩)] } := by
  simp [_driver_talk, h, u3_auto_plan, u3_ovum_init, u3nt, u3nc, u3i_string, u3_nul,
    c3__i, c3__uv, c3__born]

/-- Witness of C8: the live driver, whose instance number is 7. -/
theorem driver_talk_born_witness :
    _driver_talk envT liveT 1 = some { liveT with planned :=
      [(1, ⟨0, .atom (cord "i"),
         .cell (.atom (cord "http-client")) (.cell (.atom 7) (.atom 0)),
         .cell (.atom (cord "born")) (.atom 0)⟩)] } :=
  driver_talk_born envT liveT 1
    ⟨⟨c3__cttp, c3y, some ._driver_talk, some ._driver_kick, some ._driver_exit⟩, 7⟩
    (by decide)

/-- C10: for every wire and every card `_driver_kick` returns `c3n`, also when
the wire head is `"http-client"` and a frame was submitted. -/
theorem driver_kick_returns_c3n (E : Env) (ret_i : Int) (w : World) (driver_u : Nat)
    (wire card : Noun) :
    (_driver_kick E ret_i w driver_u wire card).1 = c3n :=
  rfl

/-! ## Further properties -/

/-- When `uv_spawn` returns 0, `u3_cttp_io_init` returns the new record, which
is the only new block: its driver handle is named `%cttp`, is live and carries
the three callbacks, its instance number is the mug of the current time; the
stdin pipe and then the process handle are opened, one spawn is requested with
the child's stdin on that pipe and stdout and stderr inherited; nothing is
freed, planned or written. -/
theorem init_spawn_success (E : Env) (tv : Nat × Nat) (w : World) (hw : w.WF) :
    (u3_cttp_io_init E tv 0 w).1 = some w.brk
    ∧ (u3_cttp_io_init E tv 0 w).2.heap = w.heap ++
        [(w.brk, .client ⟨⟨c3__cttp, c3y, some ._driver_talk, some ._driver_kick,
          some ._driver_exit⟩, E.u3r_mug (E.u3_time_in_tv tv) % 2 ^ 32⟩)]
    ∧ (u3_cttp_io_init E tv 0 w).2.handles
      = w.handles ++ [⟨w.brk, .stdin_u⟩, ⟨w.brk, .proc_u⟩]
    ∧ (u3_cttp_io_init E tv 0 w).2.spawns = w.spawns ++
        [ ⟨⟨w.brk, .proc_u⟩, ._child_exit_cb, "/home/tlon/code/io/target/debug/io",
           ["/home/tlon/code/io/target/debug/io"],
           [.create_pipe_readable ⟨w.brk, .stdin_u⟩, .inherit_fd 1, .inherit_fd 2], 0⟩ ]
    ∧ (u3_cttp_io_init E tv 0 w).2.freed = w.freed
    ∧ (u3_cttp_io_init E tv 0 w).2.planned = w.planned
    ∧ (u3_cttp_io_init E tv 0 w).2.writes = w.writes := by
  refine ⟨?_, ?_, ?_, ?_, ?_, ?_, ?_⟩
  · simp [u3_cttp_io_init, uv_spawn, c3_calloc_client, c3_malloc]
  · simp [u3_cttp_io_init, c3_calloc_client, c3_malloc, World.store, u3z, uv_pipe_init,
      uv_spawn, map_store_fresh _ _ _ hw]
  · simp [u3_cttp_io_init, c3_calloc_client, c3_malloc, World.store, u3z, uv_pipe_init,
      uv_spawn]
  · simp [u3_cttp_io_init, c3_calloc_client, c3_malloc, World.store, u3z, uv_pipe_init,
      uv_spawn, STDOUT_FILENO, STDERR_FILENO]
  · simp [u3_cttp_io_init, c3_calloc_client, c3_malloc, World.store, u3z, uv_pipe_init,
      uv_spawn]
  · simp [u3_cttp_io_init, c3_calloc_client, c3_malloc, World.store, u3z, uv_pipe_init,
      uv_spawn]
  · simp [u3_cttp_io_init, c3_calloc_client, c3_malloc, World.store, u3z, uv_pipe_init,
      uv_spawn]

/-- The successful start on the empty world at second 7. -/
theorem init_spawn_success_witness :
    World.empty.WF
    ∧ (u3_cttp_io_init envT (7, 0) 0 World.empty).1 = some 1
    ∧ (u3_cttp_io_init envT (7, 0) 0 World.empty).2.heap =
        [(1, .client ⟨⟨c3__cttp, c3y, some ._driver_talk, some ._driver_kick,
          some ._driver_exit⟩, 7⟩)]
    ∧ (u3_cttp_io_init envT (7, 0) 0 World.empty).2.handles
      = [⟨1, .stdin_u⟩, ⟨1, .proc_u⟩]
    ∧ (u3_cttp_io_init envT (7, 0) 0 World.empty).2.spawns =
        [ ⟨⟨1, .proc_u⟩, ._child_exit_cb, "/home/tlon/code/io/target/debug/io",
           ["/home/tlon/code/io/target/debug/io"],
           [.create_pipe_readable ⟨1, .stdin_u⟩, .inherit_fd 1, .inherit_fd 2], 0⟩ ]
    ∧ (u3_cttp_io_init envT (7, 0) 0 World.empty).2.freed = []
    ∧ (u3_cttp_io_init envT (7, 0) 0 World.empty).2.planned = []
    ∧ (u3_cttp_io_init envT (7, 0) 0 World.empty).2.writes = [] :=
  ⟨by decide, init_spawn_success envT (7, 0) World.empty (by decide)⟩

/-- For every world, request address and status, `_write_cb` frees the request
it is given and nothing else: one address is added to the free log, the
request has no block afterwards, every other block is as before, and the
writes, handles and planned events are untouched. -/
theorem write_cb_frees_request (w : World) (write_req_u : Nat) (status_i : Int) :
    (_write_cb w write_req_u status_i).freed = w.freed ++ [write_req_u]
    ∧ (_write_cb w write_req_u status_i).heap.lookup write_req_u = none
    ∧ (∀ a, a ≠ write_req_u →
        (_write_cb w write_req_u status_i).heap.lookup a = w.heap.lookup a)
    ∧ (_write_cb w write_req_u status_i).writes = w.writes
    ∧ (_write_cb w write_req_u status_i).handles = w.handles
    ∧ (_write_cb w write_req_u status_i).planned = w.planned := by
  refine ⟨rfl, ?_, ?_, rfl, rfl, rfl⟩
  · simp only [_write_cb, c3_free]
    rw [lookup_free]; simp
  · intro a ha
    simp only [_write_cb, c3_free]
    rw [lookup_free]; simp [ha]

/-- Well-formedness of the heap is an invariant of the driver: it holds in the
empty world and is kept by the constructor, by every kick, by the completion
callback and by the exit callback. -/
theorem driver_WF_invariant (E : Env) (tv : Nat × Nat) (ret_i : Int) (w : World)
    (driver_u write_req_u : Nat) (wire card : Noun) (hw : w.WF) :
    (u3_cttp_io_init E tv ret_i w).2.WF
    ∧ (_driver_kick E ret_i w driver_u wire card).2.WF
    ∧ (_write_cb w write_req_u ret_i).WF
    ∧ (_driver_exit w driver_u).WF :=
  ⟨init_WF E tv ret_i w hw, kick_WF E ret_i w driver_u wire card hw,
    free_WF w write_req_u hw, free_WF w driver_u hw⟩

/-- The invariant on the live driver. -/
theorem driver_WF_invariant_witness :
    liveT.WF
    ∧ (u3_cttp_io_init envT (7, 0) 0 liveT).2.WF
    ∧ (_driver_kick envT 0 liveT 1 wireT cardT).2.WF
    ∧ (_write_cb liveT 4 0).WF
    ∧ (_driver_exit liveT 1).WF :=
  ⟨by decide, driver_WF_invariant envT (7, 0) 0 liveT 1 4 wireT cardT (by decide)⟩

end Cttp
